import Mathlib

/-
Verification of the fault-and-interrupt core of wasmer's runtime-core
(src/lib/runtime-core/src/fault.rs).

The development shallowly embeds the module's data model and control flow:

* the unwind frame (`UnwindInfo`) together with `catch_unsafe_unwind` and
  `begin_unsafe_unwind` (fault.rs lines 61-65, 182-215).  The setjmp buffer is
  opaque machine state and carries no information relevant to the specified
  behaviour, so the embedding omits it; a non-local jump back to the recorded
  point is modelled by the `FOutcome.unwind` case, which is faithful because
  `begin_unsafe_unwind` is the only caller of `longjmp` in the module.
* the signal dispatcher `signal_trap_handler` (lines 285-457), split into the
  phase-1 inline-breakpoint loop, the phase-2 signal dispatch and the phase-3
  classification exactly as in the source.  Thread-local and global mutable
  state (WAS_SIGINT_TRIGGERED, INTERRUPT_SIGNAL_DELIVERED, the sentinel page
  protection) is threaded explicitly through a `ThreadState` record.
  A breakpoint callback is external code consumed through its
  `Result<(), RuntimeError>` value only, so the breakpoint map stores the
  outcome the callback would produce at each address.
* the SIGINT handler `sigint_handler` (lines 461-478),
* the alternate-stack trampoline `allocate_and_run` (lines 231-266),
* the per-(OS, arch) register context decoders `get_fault_info`
  (lines 539-1068).

Machine words are modelled as `Nat`: the module moves register and address
values around without arithmetic that could overflow a `u64` (the only
arithmetic is pointer offsets inside mapped code regions).
-/

namespace WasmerFault

/-- Modelled from the spec: exception codes come from the code generator's
exception table (spec sections 6 and 7); `ExceptionCode` itself is defined
outside this module, so it is kept abstract as a number. -/
abbrev ExceptionCode := Nat

/-- Modelled from the spec: an `InstanceImage` is an opaque resumable snapshot
built by `build_instance_image` (spec glossary); its contents are irrelevant
here, only its identity. -/
structure InstanceImage where
  imageId : Nat
deriving DecidableEq, Repr

/-- Modelled from the spec: the `InvokeError` variants surfaced by this module
(spec section 7): `TrapCode { code, srcloc }` and `FailedWithNoError`. -/
inductive InvokeError where
  | failedWithNoError
  | trapCode (code : ExceptionCode) (srcloc : Nat)
deriving DecidableEq, Repr

/-- Modelled from the spec: the `RuntimeError` variants relevant to the fault
module (spec section 7): `InvokeError`, `InstanceImage`, and user-provided
errors returned by breakpoint callbacks (kept abstract as a number). -/
inductive RuntimeError where
  | invokeError (e : InvokeError)
  | instanceImage (img : InstanceImage)
  | user (n : Nat)
deriving DecidableEq, Repr

/-- Modelled from the spec: a breakpoint callback has signature
`(BreakpointInfo) -> Result<(), RuntimeError>` (spec section 6) and is
external code; the map records the outcome the callback produces at each
code address. -/
abbrev BreakpointMap := List (Nat × Except RuntimeError Unit)

/-- `bkpt_map.and_then(|x| x.get(&ip)).map(|x| x(BreakpointInfo { .. }))`
(fault.rs lines 328 and 368): look the address up in the optional map and
run the callback. -/
def bkptMapGet (bk : Option BreakpointMap) (addr : Nat) :
    Option (Except RuntimeError Unit) :=
  bk.bind fun m => m.lookup addr

/-- `InlineBreakpointType` consumed from the code generator; `Middleware` is
the only variant (spec section 6). -/
inductive InlineBreakpointType where
  | middleware
deriving DecidableEq, Repr

/-- An inline breakpoint record as returned by `read_inline_breakpoint`. -/
structure InlineBreakpoint where
  ty : InlineBreakpointType
deriving DecidableEq, Repr

/-- The exception table consumed from the code generator: a map from code
offset to exception code (spec section 6). -/
structure ExceptionTable where
  offsetToCode : List (Nat × ExceptionCode)
deriving DecidableEq, Repr

/-- The three capability queries of a `RunnableModule` used by the dispatcher
(spec section 3, `CodeVersion`): inline-breakpoint size for the host
architecture, the inline-breakpoint decoder (a function of the faulting
address, standing for the decode of the `m` bytes located there), and the
optional exception table. -/
structure RunnableModule where
  inlineBreakpointSize : Option Nat
  readInlineBreakpoint : Nat → Option InlineBreakpoint
  exceptionTable : Option ExceptionTable

/-- A `CodeVersion`: base address, total byte size (`msm.total_size`), and
the runnable module (fault.rs uses `v.base`, `v.msm.total_size`,
`v.runnable_module`). -/
structure CodeVersion where
  base : Nat
  totalSize : Nat
  runnableModule : RunnableModule

/-- The unwind frame (fault.rs lines 61-65).  The `jmpbuf` field is opaque
machine state populated by `setjmp` and is omitted from the model. -/
structure UnwindInfo where
  breakpoints : Option BreakpointMap
  payload : Option RuntimeError

/-- The frame installed by `catch_unsafe_unwind` (fault.rs lines 188-192):
given breakpoint map, empty payload. -/
def freshFrame (bk : Option BreakpointMap) : UnwindInfo :=
  { breakpoints := bk, payload := none }

/-- Result of `begin_unsafe_unwind` (fault.rs lines 208-215): with no frame
installed on the current thread the `expect` is fatal; otherwise the error is
moved into the frame's payload and control jumps back to the recorded point
carrying that frame. -/
inductive BeginResult where
  | fatal
  | jump (frame : UnwindInfo)

/-- `begin_unsafe_unwind` (fault.rs lines 208-215). -/
def begin_unsafe_unwind (uw : Option UnwindInfo) (e : RuntimeError) : BeginResult :=
  match uw with
  | none => BeginResult.fatal
  | some frame => BeginResult.jump { frame with payload := some e }

/-- The behaviour of the closure `f` run under `catch_unsafe_unwind`: either
it returns normally with a value, or somewhere in its dynamic extent
`begin_unsafe_unwind e` is invoked (the only source of a non-local jump back
to the recorded point). -/
inductive FOutcome (R : Type) where
  | ret (r : R)
  | unwind (e : RuntimeError)

/-- `catch_unsafe_unwind` (fault.rs lines 182-205).  The thread's current
unwind frame `uw` is saved (`old`), a fresh frame is installed, and the
recorded point is taken.  On the first-time path `f` runs; if it returns
normally the previous frame is restored and `Ok` is yielded.  If `f` invokes
`begin_unsafe_unwind e`, control re-enters at the recorded point with the
frame whose payload was just set; the payload is taken
(`payload.take().unwrap()`), the previous frame is restored and `Err` is
yielded.  The outer `Option` is the panic channel: `none` stands for the
`unwrap` on a missing payload, which the theorems show is never hit.
The returned pair is (function result, thread unwind slot after return). -/
def catch_unsafe_unwind {R : Type} (uw : Option UnwindInfo)
    (bk : Option BreakpointMap) (fb : FOutcome R) :
    Option (Except RuntimeError R × Option UnwindInfo) :=
  let old := uw
  let installed := freshFrame bk
  match fb with
  | FOutcome.ret r => some (Except.ok r, old)
  | FOutcome.unwind e =>
    match begin_unsafe_unwind (some installed) e with
    | BeginResult.fatal => none
    | BeginResult.jump frame =>
      match frame.payload with
      | some p => some (Except.error p, old)
      | none => none

/-- The mutable state the dispatcher touches: the thread-local
`WAS_SIGINT_TRIGGERED` flag, the global `INTERRUPT_SIGNAL_DELIVERED` flag and
the protection state of the interrupt sentinel page (armed means
`PROT_NONE`). -/
structure ThreadState where
  wasSigintTriggered : Bool
  interruptDelivered : Bool
  sentinelArmed : Bool
deriving DecidableEq, Repr

/-- `WAS_SIGINT_TRIGGERED.with(|x| x.set(false))` (fault.rs line 361). -/
def clearSigintFlag (st : ThreadState) : ThreadState :=
  { st with wasSigintTriggered := false }

/-- The signals the trap handler is installed for (fault.rs lines 495-499). -/
inductive Sig where
  | fpe
  | ill
  | segv
  | bus
  | trap
deriving DecidableEq, Repr

/-- Result of the phase-1 inline-breakpoint loop (fault.rs lines 307-350):
the (possibly advanced) instruction pointer, whether the closure returned
`true` (early return from the handler), and the captured `should_unwind` /
`unwind_result` variables. -/
structure Phase1Out where
  ip : Nat
  earlyReturn : Bool
  shouldUnwind : Bool
  unwindResult : Option RuntimeError
deriving Repr

/-- The phase-1 loop over the active code versions (fault.rs lines 310-347):
skip versions with no inline-breakpoint size; when the IP lies in a version's
range with room for the `magic_size` bytes, try to decode an inline
breakpoint there.  On a successful decode (always `Middleware`), run the
registered callback if any, record an unwind on callback error, advance the
IP by `magic_size` and return `true`; on a failed decode, `break` out of the
loop.  Versions whose range does not contain the IP (or lack the room) are
skipped. -/
def phase1Loop (bk : Option BreakpointMap) (ip : Nat) :
    List CodeVersion → Phase1Out
  | [] => ⟨ip, false, false, none⟩
  | v :: rest =>
    match v.runnableModule.inlineBreakpointSize with
    | none => phase1Loop bk ip rest
    | some m =>
      if v.base ≤ ip ∧ ip < v.base + v.totalSize ∧ ip + m ≤ v.base + v.totalSize then
        match v.runnableModule.readInlineBreakpoint ip with
        | some ib =>
          match ib.ty with
          | InlineBreakpointType.middleware =>
            match bkptMapGet bk ip with
            | some (Except.ok _) => ⟨ip + m, true, false, none⟩
            | some (Except.error e) => ⟨ip + m, true, true, some e⟩
            | none => ⟨ip + m, true, false, none⟩
        | none => ⟨ip, false, false, none⟩
      else phase1Loop bk ip rest

/-- The exception-table search of phase 3 (fault.rs lines 425-439): first
version holding a table with an entry at offset `ip - base` wins; a version
whose table lacks the entry, is absent, or whose range does not contain the
IP is skipped. -/
def lookupExcCode : List CodeVersion → Nat → Option ExceptionCode
  | [], _ => none
  | v :: rest, ip =>
    match v.runnableModule.exceptionTable with
    | some t =>
      if v.base ≤ ip ∧ ip < v.base + v.totalSize then
        match t.offsetToCode.lookup (ip - v.base) with
        | some c => some c
        | none => lookupExcCode rest ip
      else lookupExcCode rest ip
    | none => lookupExcCode rest ip

/-- The error a non-suspension fault reaching phase 3 unwinds with
(fault.rs lines 425-447 composed with `get_unwind_result`, lines 300-303):
a `TrapCode` with `srcloc` 0 when the exception tables classify the fault,
`FailedWithNoError` otherwise. -/
def phase3Classify (versions : List CodeVersion) (ip : Nat) : RuntimeError :=
  match lookupExcCode versions ip with
  | some c => RuntimeError.invokeError (InvokeError.trapCode c 0)
  | none => RuntimeError.invokeError InvokeError.failedWithNoError

/-- Result of the phase-2/3 closure (fault.rs lines 358-451): the returned
`should_unwind` boolean, the captured `unwind_result`, and the mutated
state. -/
structure Phase23Out where
  shouldUnwind : Bool
  unwindResult : Option RuntimeError
  state : ThreadState
deriving Repr

/-- The tail of the phase-2/3 closure (fault.rs lines 399-450): build the
state image (external, elided: it only feeds the instance image and the
backtrace print), then either return the instance image for a suspension or
search the exception tables; the closure returns `true` on every path
reaching it. -/
def phase23tail (versions : List CodeVersion) (ip : Nat) (isSuspend : Bool)
    (st : ThreadState) (img : InstanceImage) : Phase23Out :=
  if isSuspend then
    ⟨true, some (RuntimeError.instanceImage img), st⟩
  else
    match lookupExcCode versions ip with
    | some c => ⟨true, some (RuntimeError.invokeError (InvokeError.trapCode c 0)), st⟩
    | none => ⟨true, none, st⟩

/-- Phases 2 and 3 of the dispatcher (fault.rs lines 358-451).  The
thread-local SIGINT flag is cleared first.  SIGTRAP consults the breakpoint
map: callback success returns `false` (resume at the same IP), callback error
records the error and returns `true`, no callback falls through.  SIGSEGV and
SIGBUS against the sentinel page mark a suspension, disarm the sentinel, and
consume a delivered interrupt into the thread-local flag.  Everything else
falls through to classification. -/
def phase23 (s : Sig) (bk : Option BreakpointMap) (versions : List CodeVersion)
    (ip fa sa : Nat) (st : ThreadState) (img : InstanceImage) : Phase23Out :=
  let st1 := clearSigintFlag st
  match s with
  | Sig.trap =>
    match bkptMapGet bk ip with
    | some (Except.ok _) => ⟨false, none, st1⟩
    | some (Except.error e) => ⟨true, some e, st1⟩
    | none => phase23tail versions ip false st1 img
  | Sig.segv | Sig.bus =>
    if fa = sa then
      let st2 := { st1 with sentinelArmed := false }
      if st2.interruptDelivered then
        phase23tail versions ip true
          { st2 with interruptDelivered := false, wasSigintTriggered := true } img
      else
        phase23tail versions ip true st2 img
    else
      phase23tail versions ip false st1 img
  | Sig.fpe | Sig.ill => phase23tail versions ip false st1 img

/-- `get_unwind_result` (fault.rs lines 300-303). -/
def getUnwindResult : Option RuntimeError → RuntimeError
  | some e => e
  | none => RuntimeError.invokeError InvokeError.failedWithNoError

/-- How a run of the signal handler ends: return from the handler (execution
resumes at the given IP written through the context) or a call to
`begin_unsafe_unwind` with the given error. -/
inductive HandlerOutcome where
  | resume (newIp : Nat)
  | unwind (e : RuntimeError)
deriving DecidableEq, Repr

/-- `signal_trap_handler` (fault.rs lines 285-457).  Inputs: the signal, the
breakpoint map of the innermost unwind frame (the handler runs inside a
`catch_unsafe_unwind` scope, as `with_breakpoint_map` requires), the active
code versions, the faulting IP and fault address from `get_fault_info`, the
sentinel page address, the mutable state and the instance image that
`build_instance_image` would produce.  Phase 1 runs first; a phase-1 unwind
takes precedence over the early return, and the handler state is whatever it
was before the fault (phase 1 never touches the SIGINT flag).  Otherwise an
early return resumes at the advanced IP, and failing that phases 2-3 decide
between resuming at the same IP and unwinding. -/
def signal_trap_handler (s : Sig) (bk : Option BreakpointMap)
    (versions : List CodeVersion) (ip fa sa : Nat) (st : ThreadState)
    (img : InstanceImage) : HandlerOutcome × ThreadState :=
  let p1 := phase1Loop bk ip versions
  if p1.shouldUnwind then
    (HandlerOutcome.unwind (getUnwindResult p1.unwindResult), st)
  else if p1.earlyReturn then
    (HandlerOutcome.resume p1.ip, st)
  else
    let p23 := phase23 s bk versions ip fa sa st img
    if p23.shouldUnwind then
      (HandlerOutcome.unwind (getUnwindResult p23.unwindResult), p23.state)
    else
      (HandlerOutcome.resume ip, p23.state)

/-- State read and written by `sigint_handler`: the global
`INTERRUPT_SIGNAL_DELIVERED` flag and the sentinel page protection. -/
structure SigintState where
  interruptDelivered : Bool
  sentinelArmed : Bool
deriving DecidableEq, Repr

/-- How a run of `sigint_handler` ends: either the handler returns with the
new state, recording whether the previously installed SIGINT handler was
chained, or the process aborts. -/
inductive SigintOutcome where
  | chained (st : SigintState) (prevRan : Bool)
  | aborted
deriving DecidableEq, Repr

/-- `sigint_handler` (fault.rs lines 461-478).  `prev` is
`SIGINT_SYS_HANDLER`, the disposition captured by `install_sighandler`
(line 507).  A swap on the delivered flag that reads `true` aborts the
process before touching the sentinel; otherwise the flag is set, the
sentinel armed (`set_wasm_interrupt`), and the previous handler chained via
`call_signal_handler` when present. -/
def sigint_handler (st : SigintState) (prev : Option Unit) : SigintOutcome :=
  if st.interruptDelivered then
    SigintOutcome.aborted
  else
    SigintOutcome.chained { interruptDelivered := true, sentinelArmed := true } prev.isSome

/-- The context struct of `allocate_and_run` (fault.rs lines 234-237). -/
structure AltContext (R : Type) where
  f : Option (Unit → R)
  ret : Option R

/-- The `invoke` thunk (fault.rs lines 239-242): take the closure out of the
context and store its result; `none` stands for the panic of `take().unwrap()`
on a missing closure. -/
def invoke {R : Type} (ctx : AltContext R) : Option (AltContext R) :=
  match ctx.f with
  | some g => some { f := none, ret := some (g ()) }
  | none => none

/-- Modelled from the spec: `run_on_alternative_stack` is platform assembly
(spec section 6) that switches to the prepared stack, runs the thunk placed
in the second-from-top slot — here always the `invoke` thunk with the context
pointer from the RDI slot — and returns.  The prepared stack words themselves
are not consumed by the model. -/
def run_on_alternative_stack {R : Type} (ctx : AltContext R) : Option (AltContext R) :=
  invoke ctx

/-- `NUM_SAVED_REGISTERS` (fault.rs line 259). -/
def NUM_SAVED_REGISTERS : Nat := 31

/-- Write one word of the prepared stack. -/
def updateWord (w : Nat → Nat) (i v : Nat) : Nat → Nat :=
  fun j => if j = i then v else w j

/-- The prepared alternate stack (fault.rs lines 252-261): `size / 8`
zero-initialised words; the `invoke` thunk address at word `end - 4`; the
context pointer (the RDI slot) at word `end - 4 - 10`; `stack_begin` is
`NUM_SAVED_REGISTERS` words below the thunk slot and `stack_end` is the word
count. -/
structure PreparedStack where
  words : Nat → Nat
  len : Nat
  stackBegin : Nat
  stackEnd : Nat

/-- Builds the prepared stack of `allocate_and_run` (fault.rs lines 252-261)
given the numeric values of the thunk address and the context pointer. -/
def prepareStack (size invokeAddr ctxAddr : Nat) : PreparedStack :=
  let n := size / 8
  let w1 := updateWord (fun _ => 0) (n - 4) invokeAddr
  let w2 := updateWord w1 (n - 4 - 10) ctxAddr
  { words := w2
    len := n
    stackBegin := n - 4 - NUM_SAVED_REGISTERS
    stackEnd := n }

/-- `allocate_and_run` (fault.rs lines 231-266): assert the size is 16-byte
aligned and at least a page, prepare the stack, run the thunk on it via the
assembly routine, and take the result out of the context
(`ctx.ret.take().unwrap()`).  `none` stands for an assertion failure or a
panic of the final `unwrap`. -/
def allocate_and_run {R : Type} (size : Nat) (f : Unit → R) : Option R :=
  if size % 16 = 0 ∧ 4096 ≤ size then
    match run_on_alternative_stack { f := some f, ret := none } with
    | some ctx2 => ctx2.ret
    | none => none
  else
    none

/-- Modelled from the spec: the canonical x86_64 general-purpose register
enumeration used to index `known_registers` (spec section 3: indexing uses
the guest's x86_64 register numbering); the numbering follows the x86_64
instruction encoding, `state/x64` not being part of the sources at hand. -/
inductive GPR where
  | rax
  | rcx
  | rdx
  | rbx
  | rsp
  | rbp
  | rsi
  | rdi
  | r8
  | r9
  | r10
  | r11
  | r12
  | r13
  | r14
  | r15
deriving DecidableEq, Repr

/-- Modelled from the spec: the XMM registers of the canonical
enumeration. -/
inductive XMM where
  | xmm0
  | xmm1
  | xmm2
  | xmm3
  | xmm4
  | xmm5
  | xmm6
  | xmm7
  | xmm8
  | xmm9
  | xmm10
  | xmm11
  | xmm12
  | xmm13
  | xmm14
  | xmm15
deriving DecidableEq, Repr

/-- Modelled from the spec: a canonical register is a GPR or an XMM
register. -/
inductive X64Register where
  | gpr (g : GPR)
  | xmm (x : XMM)
deriving DecidableEq, Repr

/-- Modelled from the spec: the index of a GPR in `known_registers[0..32]`. -/
def GPR.toIndex : GPR → Nat
  | GPR.rax => 0
  | GPR.rcx => 1
  | GPR.rdx => 2
  | GPR.rbx => 3
  | GPR.rsp => 4
  | GPR.rbp => 5
  | GPR.rsi => 6
  | GPR.rdi => 7
  | GPR.r8 => 8
  | GPR.r9 => 9
  | GPR.r10 => 10
  | GPR.r11 => 11
  | GPR.r12 => 12
  | GPR.r13 => 13
  | GPR.r14 => 14
  | GPR.r15 => 15

/-- Modelled from the spec: the index of an XMM register in
`known_registers[0..32]`, after the sixteen GPRs. -/
def XMM.toIndex : XMM → Nat
  | XMM.xmm0 => 16
  | XMM.xmm1 => 17
  | XMM.xmm2 => 18
  | XMM.xmm3 => 19
  | XMM.xmm4 => 20
  | XMM.xmm5 => 21
  | XMM.xmm6 => 22
  | XMM.xmm7 => 23
  | XMM.xmm8 => 24
  | XMM.xmm9 => 25
  | XMM.xmm10 => 26
  | XMM.xmm11 => 27
  | XMM.xmm12 => 28
  | XMM.xmm13 => 29
  | XMM.xmm14 => 30
  | XMM.xmm15 => 31

/-- Modelled from the spec: dispatch of `X64Register::to_index`. -/
def X64Register.toIndex : X64Register → Nat
  | X64Register.gpr g => g.toIndex
  | X64Register.xmm x => x.toIndex

/-- The `FaultInfo` structure (fault.rs lines 510-519).  The `ip` cell
aliases the context's PC slot; at decoder-return time the model records the
value read from that slot. -/
structure FaultInfo where
  faulting_addr : Nat
  ip : Nat
  known_registers : Nat → Option Nat

/-- One write `known_registers[reg.to_index().0] = Some(v)`. -/
def writeReg (kr : Nat → Option Nat) (r : X64Register) (v : Nat) :
    Nat → Option Nat :=
  fun i => if i = r.toIndex then some v else kr i

/-- The Linux/aarch64 signal context consumed by `get_fault_info`
(fault.rs lines 787-823): the fault address from the siginfo, the 31 general
registers `x0..x30`, the stack pointer and the program counter of the
`sigcontext`. -/
structure LinuxAarch64Context where
  si_addr : Nat
  regs : Fin 31 → Nat
  sp : Nat
  pc : Nat

/-- `get_fault_info` for Linux on aarch64 (fault.rs lines 782-850): remaps
the aarch64 general registers onto the canonical x86_64 numbering in source
order and leaves every XMM slot unpopulated; the `ip` cell aliases `pc`. -/
def get_fault_info_linux_aarch64 (c : LinuxAarch64Context) : FaultInfo :=
  let kr : Nat → Option Nat := fun _ => none
  let kr := writeReg kr (X64Register.gpr GPR.r15) (c.regs 15)
  let kr := writeReg kr (X64Register.gpr GPR.r14) (c.regs 14)
  let kr := writeReg kr (X64Register.gpr GPR.r13) (c.regs 13)
  let kr := writeReg kr (X64Register.gpr GPR.r12) (c.regs 12)
  let kr := writeReg kr (X64Register.gpr GPR.r11) (c.regs 11)
  let kr := writeReg kr (X64Register.gpr GPR.r10) (c.regs 10)
  let kr := writeReg kr (X64Register.gpr GPR.r9) (c.regs 9)
  let kr := writeReg kr (X64Register.gpr GPR.r8) (c.regs 8)
  let kr := writeReg kr (X64Register.gpr GPR.rsi) (c.regs 6)
  let kr := writeReg kr (X64Register.gpr GPR.rdi) (c.regs 7)
  let kr := writeReg kr (X64Register.gpr GPR.rdx) (c.regs 2)
  let kr := writeReg kr (X64Register.gpr GPR.rcx) (c.regs 1)
  let kr := writeReg kr (X64Register.gpr GPR.rbx) (c.regs 3)
  let kr := writeReg kr (X64Register.gpr GPR.rax) (c.regs 0)
  let kr := writeReg kr (X64Register.gpr GPR.rbp) (c.regs 5)
  let kr := writeReg kr (X64Register.gpr GPR.rsp) (c.regs 28)
  { faulting_addr := c.si_addr, ip := c.pc, known_registers := kr }

/-- Sixteen XMM low-half writes in source order, shared by the decoders that
capture floating point state. -/
def writeXmmRegs (kr : Nat → Option Nat) (xs : Fin 16 → Nat) :
    Nat → Option Nat :=
  let kr := writeReg kr (X64Register.xmm XMM.xmm0) (xs 0)
  let kr := writeReg kr (X64Register.xmm XMM.xmm1) (xs 1)
  let kr := writeReg kr (X64Register.xmm XMM.xmm2) (xs 2)
  let kr := writeReg kr (X64Register.xmm XMM.xmm3) (xs 3)
  let kr := writeReg kr (X64Register.xmm XMM.xmm4) (xs 4)
  let kr := writeReg kr (X64Register.xmm XMM.xmm5) (xs 5)
  let kr := writeReg kr (X64Register.xmm XMM.xmm6) (xs 6)
  let kr := writeReg kr (X64Register.xmm XMM.xmm7) (xs 7)
  let kr := writeReg kr (X64Register.xmm XMM.xmm8) (xs 8)
  let kr := writeReg kr (X64Register.xmm XMM.xmm9) (xs 9)
  let kr := writeReg kr (X64Register.xmm XMM.xmm10) (xs 10)
  let kr := writeReg kr (X64Register.xmm XMM.xmm11) (xs 11)
  let kr := writeReg kr (X64Register.xmm XMM.xmm12) (xs 12)
  let kr := writeReg kr (X64Register.xmm XMM.xmm13) (xs 13)
  let kr := writeReg kr (X64Register.xmm XMM.xmm14) (xs 14)
  writeReg kr (X64Register.xmm XMM.xmm15) (xs 15)

/-- The Linux/x86_64 signal context consumed by `get_fault_info`
(fault.rs lines 857-950): the named `gregs` slots, the `fpregs` save area
when the pointer is non-null (`none` covers both a null pointer and the musl
build that skips floats entirely). -/
structure LinuxX8664Context where
  si_addr : Nat
  rax : Nat
  rbx : Nat
  rcx : Nat
  rdx : Nat
  rsi : Nat
  rdi : Nat
  rbp : Nat
  rsp : Nat
  r8 : Nat
  r9 : Nat
  r10 : Nat
  r11 : Nat
  r12 : Nat
  r13 : Nat
  r14 : Nat
  r15 : Nat
  rip : Nat
  fpregs : Option (Fin 16 → Nat)

/-- `get_fault_info` for Linux on x86_64 (fault.rs lines 852-950). -/
def get_fault_info_linux_x86_64 (c : LinuxX8664Context) : FaultInfo :=
  let kr : Nat → Option Nat := fun _ => none
  let kr := writeReg kr (X64Register.gpr GPR.r15) c.r15
  let kr := writeReg kr (X64Register.gpr GPR.r14) c.r14
  let kr := writeReg kr (X64Register.gpr GPR.r13) c.r13
  let kr := writeReg kr (X64Register.gpr GPR.r12) c.r12
  let kr := writeReg kr (X64Register.gpr GPR.r11) c.r11
  let kr := writeReg kr (X64Register.gpr GPR.r10) c.r10
  let kr := writeReg kr (X64Register.gpr GPR.r9) c.r9
  let kr := writeReg kr (X64Register.gpr GPR.r8) c.r8
  let kr := writeReg kr (X64Register.gpr GPR.rsi) c.rsi
  let kr := writeReg kr (X64Register.gpr GPR.rdi) c.rdi
  let kr := writeReg kr (X64Register.gpr GPR.rdx) c.rdx
  let kr := writeReg kr (X64Register.gpr GPR.rcx) c.rcx
  let kr := writeReg kr (X64Register.gpr GPR.rbx) c.rbx
  let kr := writeReg kr (X64Register.gpr GPR.rax) c.rax
  let kr := writeReg kr (X64Register.gpr GPR.rbp) c.rbp
  let kr := writeReg kr (X64Register.gpr GPR.rsp) c.rsp
  let kr :=
    match c.fpregs with
    | some fp => writeXmmRegs kr fp
    | none => kr
  { faulting_addr := c.si_addr, ip := c.rip, known_registers := kr }

/-- The FreeBSD/x86_64 machine context consumed by `get_fault_info`
(fault.rs lines 614-780): the named `mc_` slots, the `mc_flags` word and the
XMM save area reachable through `mc_savefpu`. -/
structure FreeBSDX8664Context where
  si_addr : Nat
  mc_rdi : Nat
  mc_rsi : Nat
  mc_rdx : Nat
  mc_rcx : Nat
  mc_r8 : Nat
  mc_r9 : Nat
  mc_rax : Nat
  mc_rbx : Nat
  mc_rbp : Nat
  mc_r10 : Nat
  mc_r11 : Nat
  mc_r12 : Nat
  mc_r13 : Nat
  mc_r14 : Nat
  mc_r15 : Nat
  mc_rip : Nat
  mc_rsp : Nat
  mc_flags : Nat
  sv_xmm : Fin 16 → Nat

/-- `get_fault_info` for FreeBSD on x86_64 (fault.rs lines 612-780): the XMM
slots are read only when `mc_flags & _MC_HASFPXSTATE` (bit 4) is unset. -/
def get_fault_info_freebsd_x86_64 (c : FreeBSDX8664Context) : FaultInfo :=
  let kr : Nat → Option Nat := fun _ => none
  let kr := writeReg kr (X64Register.gpr GPR.r15) c.mc_r15
  let kr := writeReg kr (X64Register.gpr GPR.r14) c.mc_r14
  let kr := writeReg kr (X64Register.gpr GPR.r13) c.mc_r13
  let kr := writeReg kr (X64Register.gpr GPR.r12) c.mc_r12
  let kr := writeReg kr (X64Register.gpr GPR.r11) c.mc_r11
  let kr := writeReg kr (X64Register.gpr GPR.r10) c.mc_r10
  let kr := writeReg kr (X64Register.gpr GPR.r9) c.mc_r9
  let kr := writeReg kr (X64Register.gpr GPR.r8) c.mc_r8
  let kr := writeReg kr (X64Register.gpr GPR.rsi) c.mc_rsi
  let kr := writeReg kr (X64Register.gpr GPR.rdi) c.mc_rdi
  let kr := writeReg kr (X64Register.gpr GPR.rdx) c.mc_rdx
  let kr := writeReg kr (X64Register.gpr GPR.rcx) c.mc_rcx
  let kr := writeReg kr (X64Register.gpr GPR.rbx) c.mc_rbx
  let kr := writeReg kr (X64Register.gpr GPR.rax) c.mc_rax
  let kr := writeReg kr (X64Register.gpr GPR.rbp) c.mc_rbp
  let kr := writeReg kr (X64Register.gpr GPR.rsp) c.mc_rsp
  let kr :=
    if c.mc_flags &&& 4 = 0 then writeXmmRegs kr c.sv_xmm else kr
  { faulting_addr := c.si_addr, ip := c.mc_rip, known_registers := kr }

/-- The FreeBSD/aarch64 machine context consumed by `get_fault_info`
(fault.rs lines 541-609): the `gp_x` array, link register, stack pointer and
exception link register. -/
structure FreeBSDAarch64Context where
  si_addr : Nat
  gp_x : Fin 30 → Nat
  gp_lr : Nat
  gp_sp : Nat
  gp_elr : Nat

/-- `get_fault_info` for FreeBSD on aarch64 (fault.rs lines 539-610): the
same remapping as on Linux/aarch64, no XMM slots, `ip` aliasing `gp_elr`. -/
def get_fault_info_freebsd_aarch64 (c : FreeBSDAarch64Context) : FaultInfo :=
  let kr : Nat → Option Nat := fun _ => none
  let kr := writeReg kr (X64Register.gpr GPR.r15) (c.gp_x 15)
  let kr := writeReg kr (X64Register.gpr GPR.r14) (c.gp_x 14)
  let kr := writeReg kr (X64Register.gpr GPR.r13) (c.gp_x 13)
  let kr := writeReg kr (X64Register.gpr GPR.r12) (c.gp_x 12)
  let kr := writeReg kr (X64Register.gpr GPR.r11) (c.gp_x 11)
  let kr := writeReg kr (X64Register.gpr GPR.r10) (c.gp_x 10)
  let kr := writeReg kr (X64Register.gpr GPR.r9) (c.gp_x 9)
  let kr := writeReg kr (X64Register.gpr GPR.r8) (c.gp_x 8)
  let kr := writeReg kr (X64Register.gpr GPR.rsi) (c.gp_x 6)
  let kr := writeReg kr (X64Register.gpr GPR.rdi) (c.gp_x 7)
  let kr := writeReg kr (X64Register.gpr GPR.rdx) (c.gp_x 2)
  let kr := writeReg kr (X64Register.gpr GPR.rcx) (c.gp_x 1)
  let kr := writeReg kr (X64Register.gpr GPR.rbx) (c.gp_x 3)
  let kr := writeReg kr (X64Register.gpr GPR.rax) (c.gp_x 0)
  let kr := writeReg kr (X64Register.gpr GPR.rbp) (c.gp_x 5)
  let kr := writeReg kr (X64Register.gpr GPR.rsp) (c.gp_x 28)
  { faulting_addr := c.si_addr, ip := c.gp_elr, known_registers := kr }

/-- The macOS/x86_64 machine context consumed by `get_fault_info`
(fault.rs lines 953-1068): the `ss` register slots and the `fs` XMM save
area, always present. -/
structure MacOSX8664Context where
  si_addr : Nat
  rax : Nat
  rbx : Nat
  rcx : Nat
  rdx : Nat
  rdi : Nat
  rsi : Nat
  rbp : Nat
  rsp : Nat
  r8 : Nat
  r9 : Nat
  r10 : Nat
  r11 : Nat
  r12 : Nat
  r13 : Nat
  r14 : Nat
  r15 : Nat
  rip : Nat
  xmm : Fin 16 → Nat

/-- `get_fault_info` for macOS on x86_64 (fault.rs lines 952-1068): all
sixteen GPR slots and all sixteen XMM slots are populated. -/
def get_fault_info_macos_x86_64 (c : MacOSX8664Context) : FaultInfo :=
  let kr : Nat → Option Nat := fun _ => none
  let kr := writeReg kr (X64Register.gpr GPR.r15) c.r15
  let kr := writeReg kr (X64Register.gpr GPR.r14) c.r14
  let kr := writeReg kr (X64Register.gpr GPR.r13) c.r13
  let kr := writeReg kr (X64Register.gpr GPR.r12) c.r12
  let kr := writeReg kr (X64Register.gpr GPR.r11) c.r11
  let kr := writeReg kr (X64Register.gpr GPR.r10) c.r10
  let kr := writeReg kr (X64Register.gpr GPR.r9) c.r9
  let kr := writeReg kr (X64Register.gpr GPR.r8) c.r8
  let kr := writeReg kr (X64Register.gpr GPR.rsi) c.rsi
  let kr := writeReg kr (X64Register.gpr GPR.rdi) c.rdi
  let kr := writeReg kr (X64Register.gpr GPR.rdx) c.rdx
  let kr := writeReg kr (X64Register.gpr GPR.rcx) c.rcx
  let kr := writeReg kr (X64Register.gpr GPR.rbx) c.rbx
  let kr := writeReg kr (X64Register.gpr GPR.rax) c.rax
  let kr := writeReg kr (X64Register.gpr GPR.rbp) c.rbp
  let kr := writeReg kr (X64Register.gpr GPR.rsp) c.rsp
  let kr := writeXmmRegs kr c.xmm
  { faulting_addr := c.si_addr, ip := c.rip, known_registers := kr }

/-- A version classifies a faulting IP when it exposes an exception table,
its range contains the IP and the table holds an entry at the IP's offset
(fault.rs lines 427-436). -/
def versionClassifies (v : CodeVersion) (ip : Nat) : Prop :=
  ∃ t, v.runnableModule.exceptionTable = some t
    ∧ v.base ≤ ip ∧ ip < v.base + v.totalSize
    ∧ (t.offsetToCode.lookup (ip - v.base)).isSome = true

/-- Claim C1: for every closure outcome and optional breakpoint map,
`catch_unsafe_unwind` yields `Ok` of the closure's value when the closure
returns normally, and yields `Err e` with the payload taken out of the frame
when `begin_unsafe_unwind e` runs inside the closure's dynamic extent; on the
non-local path the payload read after the jump is always non-null (the
result is `some`, never the `unwrap` panic). -/
theorem c1_catch_unsafe_unwind {R : Type} (uw : Option UnwindInfo)
    (bk : Option BreakpointMap) (r : R) (e : RuntimeError) :
    catch_unsafe_unwind uw bk (FOutcome.ret r) = some (Except.ok r, uw)
    ∧ @catch_unsafe_unwind R uw bk (FOutcome.unwind e) = some (Except.error e, uw) :=
  ⟨rfl, rfl⟩

/-- Claim C2: every entry to `catch_unsafe_unwind` has exactly one matching
exit (the model never hits the panic channel), and on both the normal and the
unwind path the previously saved unwind frame is restored identically.  The
payload discipline gives at most one active payload per thread: the installed
frame starts with no payload, and only `begin_unsafe_unwind` sets one, in the
frame it jumps with; `begin_unsafe_unwind` with no frame on the current
thread is fatal. -/
theorem c2_unwind_frame_invariants {R : Type} (uw : Option UnwindInfo)
    (bk : Option BreakpointMap) (fb : FOutcome R) (e : RuntimeError)
    (fr : UnwindInfo) :
    (catch_unsafe_unwind uw bk fb).isSome = true
    ∧ (catch_unsafe_unwind uw bk fb).map Prod.snd = some uw
    ∧ begin_unsafe_unwind none e = BeginResult.fatal
    ∧ (freshFrame bk).payload = none
    ∧ begin_unsafe_unwind (some fr) e
        = BeginResult.jump { fr with payload := some e } := by
  refine ⟨?_, ?_, rfl, rfl, rfl⟩ <;> cases fb <;> rfl

/-- Claim C7: the SIGINT path is the state machine idle, delivered, observed:
a SIGINT arriving while the delivered flag is clear sets it, arms the
sentinel and chains to the previously installed SIGINT handler exactly when
one was captured; a SIGINT arriving while the flag is still set aborts the
process without arming again. -/
theorem c7_sigint_state_machine (armed armed2 : Bool) (prev : Option Unit) :
    sigint_handler { interruptDelivered := false, sentinelArmed := armed } prev
      = SigintOutcome.chained
          { interruptDelivered := true, sentinelArmed := true } prev.isSome
    ∧ sigint_handler { interruptDelivered := true, sentinelArmed := armed2 } prev
      = SigintOutcome.aborted :=
  ⟨rfl, rfl⟩

/-- The phase-3 search succeeds exactly when some active version classifies
the faulting IP. -/
theorem lookupExcCode_isSome_iff (versions : List CodeVersion) (ip : Nat) :
    (lookupExcCode versions ip).isSome = true
      ↔ ∃ v ∈ versions, versionClassifies v ip := by
  induction versions with
  | nil => simp [lookupExcCode]
  | cons v rest ih =>
    cases hvt : v.runnableModule.exceptionTable with
    | none =>
      simp only [lookupExcCode, hvt, ih, List.mem_cons, exists_eq_or_imp]
      have hnc : ¬ versionClassifies v ip := by
        rintro ⟨t, ht, -⟩
        rw [hvt] at ht
        cases ht
      simp [hnc, ih]
    | some t =>
      by_cases hin : v.base ≤ ip ∧ ip < v.base + v.totalSize
      · cases hl : t.offsetToCode.lookup (ip - v.base) with
        | some c =>
          constructor
          · intro _
            refine ⟨v, List.mem_cons_self v rest, ?_⟩
            show versionClassifies v ip
            exact ⟨t, hvt, hin.1, hin.2, by rw [hl]; rfl⟩
          · intro _
            simp [lookupExcCode, hvt, hin, hl]
        | none =>
          simp only [lookupExcCode, hvt, hin, if_true, hl, ih, List.mem_cons,
            exists_eq_or_imp]
          have hnc : ¬ versionClassifies v ip := by
            rintro ⟨t2, ht2, -, -, hsome⟩
            rw [hvt] at ht2
            cases ht2
            rw [hl] at hsome
            cases hsome
          simp [hnc, ih]
      · simp only [lookupExcCode, hvt, hin, if_false, ih, List.mem_cons,
          exists_eq_or_imp]
        have hnc : ¬ versionClassifies v ip := by
          rintro ⟨t2, -, h1, h2, -⟩
          exact hin ⟨h1, h2⟩
        simp [hnc, ih]

/-- Every path through the non-suspension tail of phases 2-3 requests an
unwind, and the unwind result composed with `get_unwind_result` is the
phase-3 classification. -/
theorem phase23tail_no_suspend (versions : List CodeVersion) (ip : Nat)
    (st : ThreadState) (img : InstanceImage) :
    (phase23tail versions ip false st img).shouldUnwind = true
    ∧ getUnwindResult (phase23tail versions ip false st img).unwindResult
        = phase3Classify versions ip := by
  cases hl : lookupExcCode versions ip <;>
    simp [phase23tail, getUnwindResult, phase3Classify, hl]

/-- A fault that is not a suspension and is not intercepted by a SIGTRAP
breakpoint callback runs the tail of phases 2-3 with the suspension flag
clear. -/
theorem phase23_no_suspend (s : Sig) (bk : Option BreakpointMap)
    (versions : List CodeVersion) (ip fa sa : Nat) (st : ThreadState)
    (img : InstanceImage)
    (hns : ¬((s = Sig.segv ∨ s = Sig.bus) ∧ fa = sa))
    (hnt : s = Sig.trap → bkptMapGet bk ip = none) :
    phase23 s bk versions ip fa sa st img
      = phase23tail versions ip false (clearSigintFlag st) img := by
  cases s with
  | trap => simp [phase23, hnt rfl]
  | segv =>
    have hfa : ¬ fa = sa := fun h => hns ⟨Or.inl rfl, h⟩
    simp [phase23, hfa]
  | bus =>
    have hfa : ¬ fa = sa := fun h => hns ⟨Or.inr rfl, h⟩
    simp [phase23, hfa]
  | fpe => rfl
  | ill => rfl

/-- Claim C3: in phase 3, for every fault that is not a suspension and was
not resolved by a breakpoint, the dispatcher unwinds with the phase-3
classification; when some active code version whose range contains the IP
has an exception table entry at offset IP minus base, that classification is
a `TrapCode` whose `srcloc` field is 0, and when no table classifies the
fault it is `FailedWithNoError`. -/
theorem c3_phase3_classification (s : Sig) (bk : Option BreakpointMap)
    (versions : List CodeVersion) (ip fa sa : Nat) (st : ThreadState)
    (img : InstanceImage)
    (hp1s : (phase1Loop bk ip versions).shouldUnwind = false)
    (hp1e : (phase1Loop bk ip versions).earlyReturn = false)
    (hns : ¬((s = Sig.segv ∨ s = Sig.bus) ∧ fa = sa))
    (hnt : s = Sig.trap → bkptMapGet bk ip = none) :
    (signal_trap_handler s bk versions ip fa sa st img).1
      = HandlerOutcome.unwind (phase3Classify versions ip)
    ∧ ((∃ v ∈ versions, versionClassifies v ip) →
        ∃ c, phase3Classify versions ip
          = RuntimeError.invokeError (InvokeError.trapCode c 0))
    ∧ ((¬ ∃ v ∈ versions, versionClassifies v ip) →
        phase3Classify versions ip
          = RuntimeError.invokeError InvokeError.failedWithNoError) := by
  refine ⟨?_, ?_, ?_⟩
  · have hp := phase23_no_suspend s bk versions ip fa sa st img hns hnt
    have ht := phase23tail_no_suspend versions ip (clearSigintFlag st) img
    simp [signal_trap_handler, hp1s, hp1e, hp, ht.1, ht.2]
  · intro h
    rw [← lookupExcCode_isSome_iff] at h
    cases hl : lookupExcCode versions ip with
    | some c => exact ⟨c, by simp [phase3Classify, hl]⟩
    | none =>
      rw [hl] at h
      cases h
  · intro h
    rw [← lookupExcCode_isSome_iff] at h
    cases hl : lookupExcCode versions ip with
    | some c =>
      rw [hl] at h
      exact absurd rfl h
    | none => simp [phase3Classify, hl]

/-- Witness for claim C3: a concrete division-trap scenario, one active
version whose exception table maps offset 8 to code 7, faulting at
IP 108. -/
theorem c3_phase3_classification_witness :
    (signal_trap_handler Sig.fpe none
        [⟨100, 32, ⟨none, fun _ => none, some ⟨[(8, 7)]⟩⟩⟩] 108 5 6
        ⟨false, false, false⟩ ⟨0⟩).1
      = HandlerOutcome.unwind
          (phase3Classify [⟨100, 32, ⟨none, fun _ => none, some ⟨[(8, 7)]⟩⟩⟩] 108)
    ∧ phase3Classify [⟨100, 32, ⟨none, fun _ => none, some ⟨[(8, 7)]⟩⟩⟩] 108
      = RuntimeError.invokeError (InvokeError.trapCode 7 0) :=
  ⟨(c3_phase3_classification Sig.fpe none
      [⟨100, 32, ⟨none, fun _ => none, some ⟨[(8, 7)]⟩⟩⟩] 108 5 6
      ⟨false, false, false⟩ ⟨0⟩ rfl rfl (by decide)
      (fun hc => nomatch hc)).1, by rfl⟩

/-- The phase-2/3 tail returns the state it was handed. -/
theorem phase23tail_state (versions : List CodeVersion) (ip : Nat) (b : Bool)
    (st : ThreadState) (img : InstanceImage) :
    (phase23tail versions ip b st img).state = st := by
  cases b <;> cases hl : lookupExcCode versions ip <;> simp [phase23tail, hl]

/-- When phase 1 neither unwinds nor returns early, the handler is decided by
phases 2-3: it unwinds with the composed unwind result when the closure
returns `true` and resumes at the unchanged IP otherwise, with the state the
closure produced. -/
theorem handler_phase23 (s : Sig) (bk : Option BreakpointMap)
    (versions : List CodeVersion) (ip fa sa : Nat) (st : ThreadState)
    (img : InstanceImage)
    (hp1s : (phase1Loop bk ip versions).shouldUnwind = false)
    (hp1e : (phase1Loop bk ip versions).earlyReturn = false) :
    signal_trap_handler s bk versions ip fa sa st img
      = (if (phase23 s bk versions ip fa sa st img).shouldUnwind then
          HandlerOutcome.unwind
            (getUnwindResult (phase23 s bk versions ip fa sa st img).unwindResult)
        else
          HandlerOutcome.resume ip,
        (phase23 s bk versions ip fa sa st img).state) := by
  by_cases h : (phase23 s bk versions ip fa sa st img).shouldUnwind = true <;>
    simp [signal_trap_handler, hp1s, hp1e, h]

/-- Claim C5: in phase 1, for a fault whose IP lies in an active code
version's range with inline-breakpoint size `m` and room for it, scanning
stops at that version regardless of the remaining versions, and when the
decode succeeds and the active breakpoint map has a callback at the IP,
callback success advances the IP by `m` and returns from the handler without
unwinding, while a callback error unwinds with exactly that error. -/
theorem c5_inline_breakpoint_probe (v : CodeVersion) (rest : List CodeVersion)
    (s : Sig) (bk : Option BreakpointMap) (m ip fa sa : Nat) (st : ThreadState)
    (img : InstanceImage) (ib : InlineBreakpoint)
    (hm : v.runnableModule.inlineBreakpointSize = some m)
    (h1 : v.base ≤ ip) (h2 : ip < v.base + v.totalSize)
    (h3 : ip + m ≤ v.base + v.totalSize)
    (hdec : v.runnableModule.readInlineBreakpoint ip = some ib) :
    phase1Loop bk ip (v :: rest) = phase1Loop bk ip [v]
    ∧ (bkptMapGet bk ip = some (Except.ok ()) →
        signal_trap_handler s bk (v :: rest) ip fa sa st img
          = (HandlerOutcome.resume (ip + m), st))
    ∧ (∀ e, bkptMapGet bk ip = some (Except.error e) →
        signal_trap_handler s bk (v :: rest) ip fa sa st img
          = (HandlerOutcome.unwind e, st)) := by
  cases ib with
  | mk ty =>
    cases ty
    refine ⟨?_, ?_, ?_⟩
    · simp [phase1Loop, hm, hdec, h1, h2, h3]
    · intro hok
      have hp1 : phase1Loop bk ip (v :: rest)
          = ⟨ip + m, true, false, none⟩ := by
        simp [phase1Loop, hm, hdec, h1, h2, h3, hok]
      simp [signal_trap_handler, hp1]
    · intro e herr
      have hp1 : phase1Loop bk ip (v :: rest)
          = ⟨ip + m, true, true, some e⟩ := by
        simp [phase1Loop, hm, hdec, h1, h2, h3, herr]
      simp [signal_trap_handler, hp1, getUnwindResult]

/-- Witness for claim C5: a two-byte middleware inline breakpoint at IP 104
inside a version based at 100, callback returning success; the handler
resumes at 106 without touching the state. -/
theorem c5_inline_breakpoint_probe_witness :
    signal_trap_handler Sig.ill (some [(104, Except.ok ())])
        [⟨100, 16,
          ⟨some 2,
            fun a =>
              if a = 104 then some ⟨InlineBreakpointType.middleware⟩ else none,
            none⟩⟩]
        104 5 6 ⟨false, false, false⟩ ⟨0⟩
      = (HandlerOutcome.resume 106, ⟨false, false, false⟩) :=
  (c5_inline_breakpoint_probe
    ⟨100, 16,
      ⟨some 2,
        fun a =>
          if a = 104 then some ⟨InlineBreakpointType.middleware⟩ else none,
        none⟩⟩
    [] Sig.ill (some [(104, Except.ok ())]) 2 104 5 6 ⟨false, false, false⟩
    ⟨0⟩ ⟨InlineBreakpointType.middleware⟩ rfl (by decide) (by decide)
    (by decide) rfl).2.1 rfl

/-- Claim C10: in phase 1, when a middleware inline breakpoint is decoded at
the IP but the breakpoint map is absent or has no callback there, the handler
still advances the IP past the breakpoint and returns without unwinding,
exactly as in the callback-success case. -/
theorem c10_inline_breakpoint_no_callback (v : CodeVersion)
    (rest : List CodeVersion) (s : Sig) (bk : Option BreakpointMap)
    (m ip fa sa : Nat) (st : ThreadState) (img : InstanceImage)
    (ib : InlineBreakpoint)
    (hm : v.runnableModule.inlineBreakpointSize = some m)
    (h1 : v.base ≤ ip) (h2 : ip < v.base + v.totalSize)
    (h3 : ip + m ≤ v.base + v.totalSize)
    (hdec : v.runnableModule.readInlineBreakpoint ip = some ib)
    (hmap : bkptMapGet bk ip = none) :
    signal_trap_handler s bk (v :: rest) ip fa sa st img
      = (HandlerOutcome.resume (ip + m), st) := by
  cases ib with
  | mk ty =>
    cases ty
    have hp1 : phase1Loop bk ip (v :: rest)
        = ⟨ip + m, true, false, none⟩ := by
      simp [phase1Loop, hm, hdec, h1, h2, h3, hmap]
    simp [signal_trap_handler, hp1]

/-- Witness for claim C10: the same inline breakpoint with no breakpoint map
at all; the handler resumes at 106. -/
theorem c10_inline_breakpoint_no_callback_witness :
    signal_trap_handler Sig.ill none
        [⟨100, 16,
          ⟨some 2,
            fun a =>
              if a = 104 then some ⟨InlineBreakpointType.middleware⟩ else none,
            none⟩⟩]
        104 5 6 ⟨false, false, false⟩ ⟨0⟩
      = (HandlerOutcome.resume 106, ⟨false, false, false⟩) :=
  c10_inline_breakpoint_no_callback
    ⟨100, 16,
      ⟨some 2,
        fun a =>
          if a = 104 then some ⟨InlineBreakpointType.middleware⟩ else none,
        none⟩⟩
    [] Sig.ill none 2 104 5 6 ⟨false, false, false⟩ ⟨0⟩
    ⟨InlineBreakpointType.middleware⟩ rfl (by decide) (by decide) (by decide)
    rfl rfl

/-- Claim C6: in phase 2, for a SIGTRAP fault that phase 1 did not handle,
a registered callback returning success makes the handler return without
unwinding and without modifying the IP; a callback error unwinds with
exactly that error; with no callback at the IP the fault falls through to
the phase-3 classification. -/
theorem c6_sigtrap_dispatch (bk : Option BreakpointMap)
    (versions : List CodeVersion) (ip fa sa : Nat) (st : ThreadState)
    (img : InstanceImage)
    (hp1s : (phase1Loop bk ip versions).shouldUnwind = false)
    (hp1e : (phase1Loop bk ip versions).earlyReturn = false) :
    (bkptMapGet bk ip = some (Except.ok ()) →
      signal_trap_handler Sig.trap bk versions ip fa sa st img
        = (HandlerOutcome.resume ip, clearSigintFlag st))
    ∧ (∀ e, bkptMapGet bk ip = some (Except.error e) →
      signal_trap_handler Sig.trap bk versions ip fa sa st img
        = (HandlerOutcome.unwind e, clearSigintFlag st))
    ∧ (bkptMapGet bk ip = none →
      phase23 Sig.trap bk versions ip fa sa st img
        = phase23tail versions ip false (clearSigintFlag st) img) := by
  refine ⟨?_, ?_, ?_⟩
  · intro hok
    have hp : phase23 Sig.trap bk versions ip fa sa st img
        = ⟨false, none, clearSigintFlag st⟩ := by
      simp [phase23, hok]
    rw [handler_phase23 Sig.trap bk versions ip fa sa st img hp1s hp1e, hp]
    rfl
  · intro e herr
    have hp : phase23 Sig.trap bk versions ip fa sa st img
        = ⟨true, some e, clearSigintFlag st⟩ := by
      simp [phase23, herr]
    rw [handler_phase23 Sig.trap bk versions ip fa sa st img hp1s hp1e, hp]
    simp [getUnwindResult]
  · intro hnone
    simp [phase23, hnone]

/-- Witness for claim C6: a SIGTRAP at IP 50 with a success callback; the
handler resumes at 50 with the SIGINT flag cleared. -/
theorem c6_sigtrap_dispatch_witness :
    signal_trap_handler Sig.trap (some [(50, Except.ok ())]) [] 50 5 6
        ⟨true, false, false⟩ ⟨0⟩
      = (HandlerOutcome.resume 50, ⟨false, false, false⟩) :=
  (c6_sigtrap_dispatch (some [(50, Except.ok ())]) [] 50 5 6
    ⟨true, false, false⟩ ⟨0⟩ rfl rfl).1 rfl

/-- Claim C4 (amended): for a fault that reaches phase 2 (phase 1 neither
unwound nor returned early), after the handler the thread-local SIGINT flag
is `true` exactly when the fault was a sentinel-page SIGSEGV/SIGBUS that
consumed a delivered interrupt, and in that case the handler unwinds with the
`InstanceImage`; the flag is `false` after every other phase-2/3 path.  A
phase-1 inline-breakpoint-callback unwind bypasses the flag clear and leaves
the flag unchanged (see the counterexample for the original claim). -/
theorem c4_sigint_flag_amended (s : Sig) (bk : Option BreakpointMap)
    (versions : List CodeVersion) (ip fa sa : Nat) (st : ThreadState)
    (img : InstanceImage)
    (hp1s : (phase1Loop bk ip versions).shouldUnwind = false)
    (hp1e : (phase1Loop bk ip versions).earlyReturn = false) :
    ((signal_trap_handler s bk versions ip fa sa st img).2.wasSigintTriggered
        = true
      ↔ ((s = Sig.segv ∨ s = Sig.bus) ∧ fa = sa
          ∧ st.interruptDelivered = true))
    ∧ (((s = Sig.segv ∨ s = Sig.bus) ∧ fa = sa
          ∧ st.interruptDelivered = true) →
        (signal_trap_handler s bk versions ip fa sa st img).1
          = HandlerOutcome.unwind (RuntimeError.instanceImage img)) := by
  rw [handler_phase23 s bk versions ip fa sa st img hp1s hp1e]
  constructor
  · cases s with
    | fpe => simp [phase23, phase23tail_state, clearSigintFlag]
    | ill => simp [phase23, phase23tail_state, clearSigintFlag]
    | trap =>
      cases hout : bkptMapGet bk ip with
      | none => simp [phase23, hout, phase23tail_state, clearSigintFlag]
      | some r =>
        cases r with
        | ok u => simp [phase23, hout, clearSigintFlag]
        | error e => simp [phase23, hout, clearSigintFlag]
    | segv =>
      by_cases hfa : fa = sa
      · cases hd : st.interruptDelivered with
        | true => simp [phase23, hfa, hd, phase23tail_state, clearSigintFlag]
        | false => simp [phase23, hfa, hd, phase23tail_state, clearSigintFlag]
      · simp [phase23, hfa, phase23tail_state, clearSigintFlag]
    | bus =>
      by_cases hfa : fa = sa
      · cases hd : st.interruptDelivered with
        | true => simp [phase23, hfa, hd, phase23tail_state, clearSigintFlag]
        | false => simp [phase23, hfa, hd, phase23tail_state, clearSigintFlag]
      · simp [phase23, hfa, phase23tail_state, clearSigintFlag]
  · rintro ⟨hsb, hfa, hd⟩
    cases hsb with
    | inl hseg =>
      subst hseg
      simp [phase23, hfa, hd, phase23tail, getUnwindResult, clearSigintFlag]
    | inr hbus =>
      subst hbus
      simp [phase23, hfa, hd, phase23tail, getUnwindResult, clearSigintFlag]

/-- Witness for the amended claim C4: a sentinel-page SIGSEGV with a
delivered interrupt, no active versions; the handler unwinds with the
instance image and the flag reads true. -/
theorem c4_sigint_flag_amended_witness :
    ((signal_trap_handler Sig.segv none [] 40 77 77
        ⟨false, true, true⟩ ⟨3⟩).2.wasSigintTriggered = true)
    ∧ (signal_trap_handler Sig.segv none [] 40 77 77
        ⟨false, true, true⟩ ⟨3⟩).1
      = HandlerOutcome.unwind (RuntimeError.instanceImage ⟨3⟩) :=
  ⟨(c4_sigint_flag_amended Sig.segv none [] 40 77 77 ⟨false, true, true⟩ ⟨3⟩
      rfl rfl).1.mpr ⟨Or.inl rfl, rfl, rfl⟩,
   (c4_sigint_flag_amended Sig.segv none [] 40 77 77 ⟨false, true, true⟩ ⟨3⟩
      rfl rfl).2 ⟨Or.inl rfl, rfl, rfl⟩⟩

/-- Counterexample to claim C4 as stated: the claim requires the SIGINT flag
to be false after every unwind that is not a SIGINT-path `InstanceImage`.
But a phase-1 inline-breakpoint callback error unwinds before the phase-2
flag clear: with the flag still set from an earlier suspension, the handler
unwinds with the callback's user error while the flag stays true. -/
theorem c4_sigint_flag_counterexample :
    (signal_trap_handler Sig.fpe
        (some [(4, Except.error (RuntimeError.user 7))])
        [⟨0, 16,
          ⟨some 2,
            fun a =>
              if a = 4 then some ⟨InlineBreakpointType.middleware⟩ else none,
            none⟩⟩]
        4 123 999 ⟨true, false, false⟩ ⟨0⟩).1
      = HandlerOutcome.unwind (RuntimeError.user 7)
    ∧ (signal_trap_handler Sig.fpe
        (some [(4, Except.error (RuntimeError.user 7))])
        [⟨0, 16,
          ⟨some 2,
            fun a =>
              if a = 4 then some ⟨InlineBreakpointType.middleware⟩ else none,
            none⟩⟩]
        4 123 999 ⟨true, false, false⟩ ⟨0⟩).2.wasSigintTriggered = true
    ∧ RuntimeError.user 7 ≠ RuntimeError.instanceImage ⟨0⟩ :=
  ⟨rfl, rfl, fun h => nomatch h⟩

/-- Claim C8: for every 16-byte-aligned size between one page and 1 MiB,
`allocate_and_run` returns the closure's value unchanged, and the prepared
stack of `size / 8` words holds the invoke thunk address at word `end - 4`,
the context pointer (the RDI slot) at word `end - 14`, and passes a
`stack_begin` exactly 31 saved-register words below the thunk slot. -/
theorem c8_allocate_and_run {R : Type} (size : Nat) (f : Unit → R)
    (a c : Nat) (h16 : size % 16 = 0) (hmin : 4096 ≤ size)
    (hmax : size ≤ 1048576) :
    allocate_and_run size f = some (f ())
    ∧ (prepareStack size a c).len = size / 8
    ∧ (prepareStack size a c).words (size / 8 - 4) = a
    ∧ (prepareStack size a c).words (size / 8 - 14) = c
    ∧ (prepareStack size a c).stackBegin = size / 8 - 4 - 31 := by
  have hn : 512 ≤ size / 8 := by omega
  refine ⟨?_, rfl, ?_, ?_, rfl⟩
  · simp [allocate_and_run, run_on_alternative_stack, invoke, h16, hmin]
  · show updateWord (updateWord (fun _ => 0) (size / 8 - 4) a)
        (size / 8 - 4 - 10) c (size / 8 - 4) = a
    simp only [updateWord]
    rw [if_neg (by omega)]
    simp
  · show updateWord (updateWord (fun _ => 0) (size / 8 - 4) a)
        (size / 8 - 4 - 10) c (size / 8 - 14) = c
    simp only [updateWord]
    rw [if_pos (by omega)]

/-- Witness for claim C8: a one-page stack, closure returning 42, thunk
address 11 and context pointer 22. -/
theorem c8_allocate_and_run_witness :
    allocate_and_run 4096 (fun _ => (42 : Nat)) = some 42
    ∧ (prepareStack 4096 11 22).len = 4096 / 8
    ∧ (prepareStack 4096 11 22).words (4096 / 8 - 4) = 11
    ∧ (prepareStack 4096 11 22).words (4096 / 8 - 14) = 22
    ∧ (prepareStack 4096 11 22).stackBegin = 4096 / 8 - 4 - 31 :=
  c8_allocate_and_run 4096 (fun _ => 42) 11 22 (by norm_num) (by norm_num)
    (by norm_num)

/-- Claim C9: the fault decoders are total functions of the delivered
context — there is no failure channel, uncaptured registers are simply
absent.  On Linux/aarch64 all sixteen canonical x86_64 GPR slots are
populated under the fixed remapping x0 to RAX, x1 to RCX, x2 to RDX, x3 to
RBX, x5 to RBP, x6 to RSI, x7 to RDI, x8 through x15 to R8 through R15 and
x28 to RSP, with every XMM slot left `None`; the Linux and FreeBSD x86_64
decoders leave all XMM slots `None` when the floating point save area is
unavailable, the FreeBSD aarch64 decoder captures no XMM slots, and the
macOS decoder populates every canonical slot. -/
theorem c9_get_fault_info (cA : LinuxAarch64Context) (cX : LinuxX8664Context)
    (cF : FreeBSDX8664Context) (cB : FreeBSDAarch64Context)
    (cM : MacOSX8664Context) :
    ((get_fault_info_linux_aarch64 cA).faulting_addr = cA.si_addr
      ∧ (get_fault_info_linux_aarch64 cA).ip = cA.pc
      ∧ (get_fault_info_linux_aarch64 cA).known_registers
          (X64Register.gpr GPR.rax).toIndex = some (cA.regs 0)
      ∧ (get_fault_info_linux_aarch64 cA).known_registers
          (X64Register.gpr GPR.rcx).toIndex = some (cA.regs 1)
      ∧ (get_fault_info_linux_aarch64 cA).known_registers
          (X64Register.gpr GPR.rdx).toIndex = some (cA.regs 2)
      ∧ (get_fault_info_linux_aarch64 cA).known_registers
          (X64Register.gpr GPR.rbx).toIndex = some (cA.regs 3)
      ∧ (get_fault_info_linux_aarch64 cA).known_registers
          (X64Register.gpr GPR.rbp).toIndex = some (cA.regs 5)
      ∧ (get_fault_info_linux_aarch64 cA).known_registers
          (X64Register.gpr GPR.rsi).toIndex = some (cA.regs 6)
      ∧ (get_fault_info_linux_aarch64 cA).known_registers
          (X64Register.gpr GPR.rdi).toIndex = some (cA.regs 7)
      ∧ (get_fault_info_linux_aarch64 cA).known_registers
          (X64Register.gpr GPR.r8).toIndex = some (cA.regs 8)
      ∧ (get_fault_info_linux_aarch64 cA).known_registers
          (X64Register.gpr GPR.r9).toIndex = some (cA.regs 9)
      ∧ (get_fault_info_linux_aarch64 cA).known_registers
          (X64Register.gpr GPR.r10).toIndex = some (cA.regs 10)
      ∧ (get_fault_info_linux_aarch64 cA).known_registers
          (X64Register.gpr GPR.r11).toIndex = some (cA.regs 11)
      ∧ (get_fault_info_linux_aarch64 cA).known_registers
          (X64Register.gpr GPR.r12).toIndex = some (cA.regs 12)
      ∧ (get_fault_info_linux_aarch64 cA).known_registers
          (X64Register.gpr GPR.r13).toIndex = some (cA.regs 13)
      ∧ (get_fault_info_linux_aarch64 cA).known_registers
          (X64Register.gpr GPR.r14).toIndex = some (cA.regs 14)
      ∧ (get_fault_info_linux_aarch64 cA).known_registers
          (X64Register.gpr GPR.r15).toIndex = some (cA.regs 15)
      ∧ (get_fault_info_linux_aarch64 cA).known_registers
          (X64Register.gpr GPR.rsp).toIndex = some (cA.regs 28)
      ∧ (∀ x : XMM, (get_fault_info_linux_aarch64 cA).known_registers
          (X64Register.xmm x).toIndex = none))
    ∧ (cX.fpregs = none → ∀ x : XMM,
        (get_fault_info_linux_x86_64 cX).known_registers
          (X64Register.xmm x).toIndex = none)
    ∧ (cF.mc_flags &&& 4 ≠ 0 → ∀ x : XMM,
        (get_fault_info_freebsd_x86_64 cF).known_registers
          (X64Register.xmm x).toIndex = none)
    ∧ (∀ x : XMM, (get_fault_info_freebsd_aarch64 cB).known_registers
        (X64Register.xmm x).toIndex = none)
    ∧ (∀ r : X64Register,
        ((get_fault_info_macos_x86_64 cM).known_registers r.toIndex).isSome
          = true) := by
  refine ⟨⟨rfl, rfl, rfl, rfl, rfl, rfl, rfl, rfl, rfl, rfl, rfl, rfl, rfl,
    rfl, rfl, rfl, rfl, rfl, ?_⟩, ?_, ?_, ?_, ?_⟩
  · intro x
    cases x <;> rfl
  · intro hfp x
    simp only [get_fault_info_linux_x86_64, hfp]
    cases x <;> rfl
  · intro hflag x
    simp only [get_fault_info_freebsd_x86_64]
    rw [if_neg hflag]
    cases x <;> rfl
  · intro x
    cases x <;> rfl
  · intro r
    cases r with
    | gpr g => cases g <;> rfl
    | xmm x => cases x <;> rfl

/-- Witness for claim C9: concrete contexts exercising the hypothesised
conjuncts — a Linux x86_64 context with a null floating point save area and
a FreeBSD x86_64 context with the `_MC_HASFPXSTATE` bit set leave the XMM0
slot unpopulated. -/
theorem c9_get_fault_info_witness :
    (get_fault_info_linux_x86_64
        ⟨1, 2, 3, 4, 5, 6, 7, 8, 9, 10, 11, 12, 13, 14, 15, 16, 17, 18,
          none⟩).known_registers (X64Register.xmm XMM.xmm0).toIndex = none
    ∧ (get_fault_info_freebsd_x86_64
        ⟨1, 2, 3, 4, 5, 6, 7, 8, 9, 10, 11, 12, 13, 14, 15, 16, 17, 18, 4,
          fun _ => 0⟩).known_registers (X64Register.xmm XMM.xmm0).toIndex
        = none :=
  ⟨(c9_get_fault_info ⟨0, fun _ => 0, 0, 0⟩
      ⟨1, 2, 3, 4, 5, 6, 7, 8, 9, 10, 11, 12, 13, 14, 15, 16, 17, 18, none⟩
      ⟨1, 2, 3, 4, 5, 6, 7, 8, 9, 10, 11, 12, 13, 14, 15, 16, 17, 18, 4,
        fun _ => 0⟩
      ⟨0, fun _ => 0, 0, 0, 0⟩
      ⟨0, 0, 0, 0, 0, 0, 0, 0, 0, 0, 0, 0, 0, 0, 0, 0, 0, 0,
        fun _ => 0⟩).2.1 rfl XMM.xmm0,
   (c9_get_fault_info ⟨0, fun _ => 0, 0, 0⟩
      ⟨1, 2, 3, 4, 5, 6, 7, 8, 9, 10, 11, 12, 13, 14, 15, 16, 17, 18, none⟩
      ⟨1, 2, 3, 4, 5, 6, 7, 8, 9, 10, 11, 12, 13, 14, 15, 16, 17, 18, 4,
        fun _ => 0⟩
      ⟨0, fun _ => 0, 0, 0, 0⟩
      ⟨0, 0, 0, 0, 0, 0, 0, 0, 0, 0, 0, 0, 0, 0, 0, 0, 0, 0,
        fun _ => 0⟩).2.2.1 (by norm_num) XMM.xmm0⟩

end WasmerFault
